import Mathlib

/-!
Shallow embedding of `scripts/updateapilist.py`.

Python strings are modelled as Lean `String`; Python lists as Lean `List`;
the HTTP layer is modelled as oracle functions passed explicitly; file
contents are modelled as lists of lines (each line carrying its trailing
newline, as Python's file iteration yields them).
-/

namespace UpdateApiList

/-- Embedding of Python's `str.startswith`: the pattern's characters are a
prefix of the string's characters. -/
def pyStartswith (s pre : String) : Bool :=
  pre.data.isPrefixOf s.data

/-- One step of Python's `str.replace` scan: if `pat` is a nonempty prefix of
the character list, emit `repl` and skip past the match, otherwise keep one
character; `fuel` bounds the recursion (callers pass the list length, which
suffices because every step with a nonempty pattern consumes at least one
character). -/
def pyReplaceAux (pat repl : List Char) : Nat → List Char → List Char
  | _, [] => []
  | 0, l => l
  | fuel + 1, c :: rest =>
    if pat.isPrefixOf (c :: rest) && !pat.isEmpty then
      repl ++ pyReplaceAux pat repl fuel (rest.drop (pat.length - 1))
    else
      c :: pyReplaceAux pat repl fuel rest

/-- Embedding of Python's `str.replace` for a nonempty pattern: replace every
non-overlapping occurrence of `pat` in `s` by `repl`, scanning left to
right. -/
def pyReplace (s pat repl : String) : String :=
  ⟨pyReplaceAux pat.data repl.data s.data.length s.data⟩

/-- Embedding of Python's string comparison `s < t` on character lists:
compare code points position by position, a proper prefix being smaller. -/
def pyStrLtList : List Char → List Char → Bool
  | _, [] => false
  | [], _ :: _ => true
  | a :: as, b :: bs =>
    if a < b then true else if b < a then false else pyStrLtList as bs

/-- Embedding of Python's string comparison `s < t`. -/
def pyStrLt (s t : String) : Bool :=
  pyStrLtList s.data t.data

/-- The `.repo-metadata.json` document fields the script reads
(`repo`, `name_pretty`, `release_level`, `distribution_name`). -/
structure RepoMetadata where
  repo : String
  name_pretty : String
  release_level : String
  distribution_name : String
deriving DecidableEq

/-- `CloudClient`: the in-memory descriptor for one client library. -/
structure CloudClient where
  repo : String
  title : String
  release_level : String
  distribution_name : String
deriving DecidableEq

/-- `CloudClient.__init__`: fields copied from the metadata document, the
title being the pretty name with `"Google "` and then `"Cloud "` removed. -/
def CloudClient.ofRepo (r : RepoMetadata) : CloudClient :=
  { repo := r.repo
    title := pyReplace (pyReplace r.name_pretty "Google " "") "Cloud " ""
    release_level := r.release_level
    distribution_name := r.distribution_name }

/-- `CloudClient.__lt__`: equal release levels compare by title ascending,
otherwise by release level descending. -/
def CloudClient.lt (self other : CloudClient) : Bool :=
  if self.release_level = other.release_level then
    pyStrLt self.title other.title
  else
    pyStrLt other.release_level self.release_level

/-- `START_MARKER` of `replace_content_in_readme`. -/
def START_MARKER : String := ".. API_TABLE_START"

/-- `END_MARKER` of `replace_content_in_readme`. -/
def END_MARKER : String := ".. API_TABLE_END"

/-- The line loop of `replace_content_in_readme`: `newlines` is the
accumulator, `repl_open` the suppression flag.  A line is appended when the
flag is off; a line starting with `START_MARKER` then opens suppression and
appends `content_rows`; otherwise a line starting with `END_MARKER` appends a
blank line and the line itself and closes suppression. -/
def replLoop (content_rows : List String) :
    List String → List String → Bool → List String
  | [], newlines, _ => newlines
  | line :: rest, newlines, repl_open =>
    let newlines1 := if repl_open then newlines else newlines ++ [line]
    if pyStartswith line START_MARKER then
      replLoop content_rows rest (newlines1 ++ content_rows) true
    else if pyStartswith line END_MARKER then
      replLoop content_rows rest (newlines1 ++ ["\n", line]) false
    else
      replLoop content_rows rest newlines1 repl_open

/-- `replace_content_in_readme`, as a pure function from the file's lines to
the rewritten file's lines. -/
def replace_content_in_readme (content_rows : List String)
    (file : List String) : List String :=
  replLoop content_rows file [] false

/-- `client_row`: the two-element content row and the PyPI badge definition
for one client. -/
def client_row (client : CloudClient) : List String × String :=
  let pypi_badge :=
    ".. |PyPI-" ++ client.distribution_name ++
      "| image:: https://img.shields.io/pypi/v/" ++ client.distribution_name ++
      ".svg\n     :target: https://pypi.org/project/" ++
      client.distribution_name ++ "\n"
  let content_row := [
    "   * - `" ++ client.title ++ " <https://github.com/" ++ client.repo ++
      ">`_\n",
    "     - " ++ "|" ++ client.release_level ++ "|\n" ++
      "     - |PyPI-" ++ client.distribution_name ++ "|\n"
  ]
  (content_row, pypi_badge)

/-- The fixed header block of `generate_table_contents`. -/
def TABLE_HEADER : List String := [
  "\n",
  ".. list-table::\n",
  "   :header-rows: 1\n",
  "\n",
  "   * - Client\n",
  "     - Release Level\n",
  "     - Version\n"
]

/-- Loop body of `generate_table_contents`: extend the content rows with the
client's row and append its badge to the link list. -/
def tableStep (acc : List String × List String) (client : CloudClient) :
    List String × List String :=
  (acc.1 ++ (client_row client).1, acc.2 ++ [(client_row client).2])

/-- `generate_table_contents`: the header rows extended per client, followed
by a blank line and the badge definitions, one per client. -/
def generate_table_contents (clients : List CloudClient) : List String :=
  let result := clients.foldl tableStep (TABLE_HEADER, ["\n"])
  result.1 ++ result.2

/-- A repository summary record from the organization listing, with the
fields `allowed_repo` reads. -/
structure RepoSummary where
  full_name : String
  archived : Bool
deriving DecidableEq

/-- `REPO_EXCLUSION`: the fixed denylist of slugs. -/
def REPO_EXCLUSION : List String := [
  "googleapis/python-api-core",
  "googleapis/python-cloud-core",
  "googleapis/python-org-policy",
  "googleapis/python-os-config",
  "googleapis/python-access-context-manager",
  "googleapis/python-api-common-protos",
  "googleapis/python-test-utils"
]

/-- `allowed_repo`: prefix match, not excluded, not archived. -/
def allowed_repo (repo : RepoSummary) : Bool :=
  pyStartswith repo.full_name "googleapis/python-"
    && !(REPO_EXCLUSION.contains repo.full_name)
    && !repo.archived

/-- An HTTP response for a metadata document: status code and decoded JSON
body. -/
structure MetadataResponse where
  status_code : Nat
  json : RepoMetadata
deriving DecidableEq

/-- `requests.codes.ok`. -/
def REQUESTS_CODES_OK : Nat := 200

/-- `client_for_repo`, with the HTTP GET modelled by the oracle `fetch` from
slugs to responses: a non-ok status yields no descriptor, otherwise a
descriptor built from the response body. -/
def client_for_repo (fetch : String → MetadataResponse) (repo_slug : String) :
    Option CloudClient :=
  let response := fetch repo_slug
  if response.status_code ≠ REQUESTS_CODES_OK then
    none
  else
    some (CloudClient.ofRepo response.json)

/-- `get_clients_batch_from_response_json`: fetch a descriptor for every
allowed repository of one listing page. -/
def get_clients_batch_from_response_json (fetch : String → MetadataResponse)
    (response_json : List RepoSummary) : List (Option CloudClient) :=
  (response_json.filter allowed_repo).map
    (fun repo => client_for_repo fetch repo.full_name)

/-- The pagination loop of `all_clients`, with the successive listing
responses modelled as the list `pages`: stop at an empty page, otherwise
accumulate the page's batch. -/
def allClientsLoop (fetch : String → MetadataResponse) :
    List (List RepoSummary) → List (Option CloudClient)
  | [] => []
  | page :: rest =>
    if page.length = 0 then []
    else get_clients_batch_from_response_json fetch page
        ++ allClientsLoop fetch rest

/-- `all_clients`: the accumulated batches with the empty (`None`)
descriptors removed. -/
def all_clients (fetch : String → MetadataResponse)
    (pages : List (List RepoSummary)) : List CloudClient :=
  (allClientsLoop fetch pages).filterMap id

/-- Stable insertion of a client into a sorted list, inserting before the
first element it compares less than. -/
def insertClient (c : CloudClient) : List CloudClient → List CloudClient
  | [] => [c]
  | d :: rest =>
    if CloudClient.lt c d then c :: d :: rest else d :: insertClient c rest

/-- Python's `sorted` over `CloudClient.__lt__`, modelled as a stable
insertion sort. -/
def sortedClients (l : List CloudClient) : List CloudClient :=
  l.foldr insertClient []

/-- The `MissingGithubToken` error raised when the token variable is not
set. -/
structure MissingGithubToken where
  msg : String
deriving DecidableEq

/-- The module-level script: the environment is the oracle `env`; absence of
`GITHUB_TOKEN` raises `MissingGithubToken` before any fetching; otherwise the
clients are listed, sorted, rendered and spliced into the README lines, and
the rewritten lines are returned. -/
def run_script (env : String → Option String)
    (fetch : String → MetadataResponse) (pages : List (List RepoSummary))
    (readme : List String) : Except MissingGithubToken (List String) :=
  match env "GITHUB_TOKEN" with
  | none => Except.error ⟨"Please include a GITHUB_TOKEN env var."⟩
  | some _ =>
    let clients := sortedClients (all_clients fetch pages)
    let table_contents := generate_table_contents clients
    Except.ok (replace_content_in_readme table_contents readme)

/-! ### Bridge lemmas between the embedded Python primitives and Mathlib's orders -/

lemma pyStrLtList_iff_lex (as : List Char) : ∀ bs : List Char,
    pyStrLtList as bs = true ↔ List.Lex (· < ·) as bs := by
  induction as with
  | nil =>
    intro bs
    cases bs with
    | nil => simp [pyStrLtList]
    | cons b bs =>
      simp only [pyStrLtList, true_iff]
      exact List.Lex.nil
  | cons a as ih =>
    intro bs
    cases bs with
    | nil => simp [pyStrLtList]
    | cons b bs =>
      by_cases hab : a < b
      · simp only [pyStrLtList, hab, if_true, true_iff]
        exact List.Lex.rel hab
      · by_cases hba : b < a
        · simp only [pyStrLtList, hab, hba, if_true, if_false,
            Bool.false_eq_true, false_iff]
          intro h
          cases h with
          | cons h2 => exact absurd hba (lt_irrefl a)
          | rel h2 => exact hab h2
        · have heq : a = b := le_antisymm (le_of_not_lt hba) (le_of_not_lt hab)
          subst heq
          simp only [pyStrLtList, lt_irrefl a, if_false]
          rw [ih bs]
          exact List.Lex.cons_iff.symm

lemma pyStrLt_iff (s t : String) : pyStrLt s t = true ↔ s < t := by
  rw [String.lt_iff_toList_lt]
  exact pyStrLtList_iff_lex s.data t.data

lemma cloudClient_lt_iff (a b : CloudClient) :
    CloudClient.lt a b = true ↔
      (a.release_level = b.release_level ∧ a.title < b.title) ∨
        (a.release_level ≠ b.release_level ∧
          b.release_level < a.release_level) := by
  unfold CloudClient.lt
  by_cases h : a.release_level = b.release_level
  · simp [h, pyStrLt_iff]
  · simp [h, pyStrLt_iff]

lemma pyStartswith_end_not_start (l : String)
    (h : pyStartswith l END_MARKER = true) :
    pyStartswith l START_MARKER = false := by
  cases hs : pyStartswith l START_MARKER
  · rfl
  · exfalso
    rw [pyStartswith, List.isPrefixOf_iff_prefix] at h hs
    have hlen : END_MARKER.data.length ≤ START_MARKER.data.length := by decide
    have hpre : END_MARKER.data <+: START_MARKER.data :=
      List.prefix_of_prefix_length_le h hs hlen
    have hbool : END_MARKER.data.isPrefixOf START_MARKER.data = true := by
      rw [List.isPrefixOf_iff_prefix]; exact hpre
    exact absurd hbool (by decide)

/-! ### Step lemmas for the line loop of `replace_content_in_readme` -/

lemma replLoop_nil (content acc : List String) (b : Bool) :
    replLoop content [] acc b = acc := rfl

lemma replLoop_copy_step (content : List String) (l : String)
    (rest acc : List String)
    (h1 : pyStartswith l START_MARKER = false)
    (h2 : pyStartswith l END_MARKER = false) :
    replLoop content (l :: rest) acc false
      = replLoop content rest (acc ++ [l]) false := by
  simp [replLoop, h1, h2]

lemma replLoop_suppress_step (content : List String) (l : String)
    (rest acc : List String)
    (h1 : pyStartswith l START_MARKER = false)
    (h2 : pyStartswith l END_MARKER = false) :
    replLoop content (l :: rest) acc true
      = replLoop content rest acc true := by
  simp [replLoop, h1, h2]

lemma replLoop_start_copy (content : List String) (l : String)
    (rest acc : List String)
    (h1 : pyStartswith l START_MARKER = true) :
    replLoop content (l :: rest) acc false
      = replLoop content rest (acc ++ l :: content) true := by
  simp [replLoop, h1]

lemma replLoop_end_open (content : List String) (l : String)
    (rest acc : List String)
    (h2 : pyStartswith l END_MARKER = true) :
    replLoop content (l :: rest) acc true
      = replLoop content rest (acc ++ ["\n", l]) false := by
  simp [replLoop, pyStartswith_end_not_start l h2, h2]

lemma replLoop_end_copy (content : List String) (l : String)
    (rest acc : List String)
    (h2 : pyStartswith l END_MARKER = true) :
    replLoop content (l :: rest) acc false
      = replLoop content rest (acc ++ [l, "\n", l]) false := by
  simp [replLoop, pyStartswith_end_not_start l h2, h2]

lemma replLoop_copy_list (content : List String) : ∀ ls rest acc : List String,
    (∀ l ∈ ls, pyStartswith l START_MARKER = false ∧
        pyStartswith l END_MARKER = false) →
    replLoop content (ls ++ rest) acc false
      = replLoop content rest (acc ++ ls) false := by
  intro ls
  induction ls with
  | nil => intro rest acc _; simp
  | cons l ls ih =>
    intro rest acc h
    have hl := h l (List.mem_cons_self l ls)
    rw [List.cons_append, replLoop_copy_step content l (ls ++ rest) acc hl.1 hl.2,
      ih rest (acc ++ [l]) (fun x hx => h x (List.mem_cons_of_mem l hx))]
    simp

lemma replLoop_suppress_list (content : List String) : ∀ ls rest acc : List String,
    (∀ l ∈ ls, pyStartswith l START_MARKER = false ∧
        pyStartswith l END_MARKER = false) →
    replLoop content (ls ++ rest) acc true = replLoop content rest acc true := by
  intro ls
  induction ls with
  | nil => intro rest acc _; simp
  | cons l ls ih =>
    intro rest acc h
    have hl := h l (List.mem_cons_self l ls)
    rw [List.cons_append,
      replLoop_suppress_step content l (ls ++ rest) acc hl.1 hl.2,
      ih rest acc (fun x hx => h x (List.mem_cons_of_mem l hx))]

lemma replLoop_copy_final (content : List String) (ls acc : List String)
    (h : ∀ l ∈ ls, pyStartswith l START_MARKER = false ∧
        pyStartswith l END_MARKER = false) :
    replLoop content ls acc false = acc ++ ls := by
  have h2 := replLoop_copy_list content ls [] acc h
  simpa using h2

/-! ### Claim theorems -/

/-- C1: for an input file whose lines are `A`, a start-marker line, the old
block, an end-marker line, `B` (no other line starting with a marker), and a
generated content block, `replace_content_in_readme` rewrites the file to
exactly `A`, the start-marker line, the content block, a blank line, the
end-marker line, `B`. -/
theorem replace_content_rewrites_managed_region
    (A old B content_rows : List String) (startLine endLine : String)
    (hA : ∀ l ∈ A, pyStartswith l START_MARKER = false ∧
        pyStartswith l END_MARKER = false)
    (hold : ∀ l ∈ old, pyStartswith l START_MARKER = false ∧
        pyStartswith l END_MARKER = false)
    (hB : ∀ l ∈ B, pyStartswith l START_MARKER = false ∧
        pyStartswith l END_MARKER = false)
    (hs : pyStartswith startLine START_MARKER = true)
    (he : pyStartswith endLine END_MARKER = true) :
    replace_content_in_readme content_rows
        (A ++ startLine :: (old ++ endLine :: B))
      = A ++ startLine :: (content_rows ++ "\n" :: endLine :: B) := by
  unfold replace_content_in_readme
  rw [replLoop_copy_list content_rows A (startLine :: (old ++ endLine :: B))
    [] hA]
  rw [replLoop_start_copy content_rows startLine (old ++ endLine :: B)
    ([] ++ A) hs]
  rw [replLoop_suppress_list content_rows old (endLine :: B) _ hold]
  rw [replLoop_end_open content_rows endLine B _ he]
  rw [replLoop_copy_final content_rows B _ hB]
  simp

/-- Witness for C1 at the spec's concrete shape: `A`, `START`, `old1`,
`old2`, `END`, `B` with generated block `[X, Y]`. -/
theorem replace_content_rewrites_managed_region_witness :
    replace_content_in_readme ["X\n", "Y\n"]
        ["A\n", ".. API_TABLE_START\n", "old1\n", "old2\n",
          ".. API_TABLE_END\n", "B\n"]
      = ["A\n", ".. API_TABLE_START\n", "X\n", "Y\n", "\n",
          ".. API_TABLE_END\n", "B\n"] := by
  have h := replace_content_rewrites_managed_region ["A\n"]
    ["old1\n", "old2\n"] ["B\n"] ["X\n", "Y\n"]
    ".. API_TABLE_START\n" ".. API_TABLE_END\n"
    (by decide) (by decide) (by decide) (by decide) (by decide)
  simpa using h

/-- C5 counterexample: a file with an end-marker line and no start-marker
line is not copied through unchanged, contradicting the claim that missing
either marker leaves the file unchanged. -/
theorem replace_missing_start_marker_changes_file :
    replace_content_in_readme [] [".. API_TABLE_END\n"]
      ≠ [".. API_TABLE_END\n"] := by decide

/-- C5 amended: when no line starts with the start marker and also no line
starts with the end marker, `replace_content_in_readme` leaves the file's
contents entirely unchanged. -/
theorem replace_no_marker_lines_unchanged (content_rows file : List String)
    (h : ∀ l ∈ file, pyStartswith l START_MARKER = false ∧
        pyStartswith l END_MARKER = false) :
    replace_content_in_readme content_rows file = file := by
  unfold replace_content_in_readme
  have h2 := replLoop_copy_final content_rows file [] h
  simpa using h2

/-- Witness for the amended C5 at a concrete marker-free file. -/
theorem replace_no_marker_lines_unchanged_witness :
    replace_content_in_readme ["X\n"] ["A\n", "B\n"] = ["A\n", "B\n"] :=
  replace_no_marker_lines_unchanged ["X\n"] ["A\n", "B\n"] (by decide)

/-- C6 counterexample: at a concrete file the start-marker line IS appended
to the output ahead of the generated block (the first output line is the
marker, the second is the block's first line), contradicting the claim that
the marker line is not re-emitted before the block. -/
theorem start_marker_suppression_counterexample :
    replace_content_in_readme ["X\n"]
        [".. API_TABLE_START\n", ".. API_TABLE_END\n"]
      = [".. API_TABLE_START\n", "X\n", "\n", ".. API_TABLE_END\n"]
  ∧ (replace_content_in_readme ["X\n"]
        [".. API_TABLE_START\n", ".. API_TABLE_END\n"]).take 2
      = [".. API_TABLE_START\n", "X\n"] :=
  ⟨by decide, by decide⟩

/-- C6 amended: upon a start-marker line encountered in the copying state,
the marker line itself IS appended to the output, and the generated block is
inserted immediately after the re-emitted marker line. -/
theorem start_marker_emitted_before_block
    (content_rows A rest : List String) (startLine : String)
    (hA : ∀ l ∈ A, pyStartswith l START_MARKER = false ∧
        pyStartswith l END_MARKER = false)
    (hs : pyStartswith startLine START_MARKER = true) :
    replace_content_in_readme content_rows (A ++ startLine :: rest)
      = replLoop content_rows rest (A ++ startLine :: content_rows) true := by
  unfold replace_content_in_readme
  rw [replLoop_copy_list content_rows A (startLine :: rest) [] hA]
  rw [replLoop_start_copy content_rows startLine rest ([] ++ A) hs]
  simp

/-- Witness for the amended C6 at a concrete file. -/
theorem start_marker_emitted_before_block_witness :
    replace_content_in_readme ["X\n"] [".. API_TABLE_START\n", "old\n"]
      = replLoop ["X\n"] ["old\n"] [".. API_TABLE_START\n", "X\n"] true := by
  have h := start_marker_emitted_before_block ["X\n"] [] ["old\n"]
    ".. API_TABLE_START\n" (by decide) (by decide)
  simpa using h

/-- C10: an end-marker line met in the copying state (no unclosed start
marker before it) is emitted twice, separated by an inserted blank line, so
the file is not copied through unchanged. -/
theorem end_marker_in_copying_state_duplicated
    (content_rows A B : List String) (endLine : String)
    (hA : ∀ l ∈ A, pyStartswith l START_MARKER = false ∧
        pyStartswith l END_MARKER = false)
    (hB : ∀ l ∈ B, pyStartswith l START_MARKER = false ∧
        pyStartswith l END_MARKER = false)
    (he : pyStartswith endLine END_MARKER = true) :
    replace_content_in_readme content_rows (A ++ endLine :: B)
        = A ++ endLine :: "\n" :: endLine :: B
      ∧ replace_content_in_readme content_rows (A ++ endLine :: B)
          ≠ A ++ endLine :: B := by
  have heq : replace_content_in_readme content_rows (A ++ endLine :: B)
      = A ++ endLine :: "\n" :: endLine :: B := by
    unfold replace_content_in_readme
    rw [replLoop_copy_list content_rows A (endLine :: B) [] hA]
    rw [replLoop_end_copy content_rows endLine B ([] ++ A) he]
    rw [replLoop_copy_final content_rows B _ hB]
    simp
  refine ⟨heq, ?_⟩
  rw [heq]
  intro hcontra
  have hlen := congrArg List.length hcontra
  simp only [List.length_append, List.length_cons] at hlen
  omega

/-- Witness for C10 at a concrete single-line file. -/
theorem end_marker_in_copying_state_duplicated_witness :
    replace_content_in_readme [] [".. API_TABLE_END\n"]
        = [".. API_TABLE_END\n", "\n", ".. API_TABLE_END\n"]
      ∧ replace_content_in_readme [] [".. API_TABLE_END\n"]
          ≠ [".. API_TABLE_END\n"] := by
  have h := end_marker_in_copying_state_duplicated [] [] []
    ".. API_TABLE_END\n" (by decide) (by decide) (by decide)
  simpa using h

/-- C2: `CloudClient.lt` is a strict total order (irreflexive, transitive,
trichotomous up to equal keys) in which distinct release levels compare by
the level's lexical order reversed (more stable first) and equal release
levels compare by title ascending; concretely a stable "Zeta" precedes a
beta "Alpha". -/
theorem cloudClient_lt_total_order :
    (∀ a b : CloudClient, a.release_level ≠ b.release_level →
        (CloudClient.lt a b = true ↔
          b.release_level < a.release_level))
  ∧ (∀ a b : CloudClient, a.release_level = b.release_level →
        (CloudClient.lt a b = true ↔ a.title < b.title))
  ∧ (∀ a : CloudClient, CloudClient.lt a a = false)
  ∧ (∀ a b c : CloudClient, CloudClient.lt a b = true →
        CloudClient.lt b c = true → CloudClient.lt a c = true)
  ∧ (∀ a b : CloudClient, CloudClient.lt a b = true ∨
        CloudClient.lt b a = true ∨
        (a.release_level = b.release_level ∧ a.title = b.title))
  ∧ CloudClient.lt ⟨"r1", "Zeta", "stable", "d1"⟩
      ⟨"r2", "Alpha", "beta", "d2"⟩ = true := by
  refine ⟨?_, ?_, ?_, ?_, ?_, by decide⟩
  · intro a b h
    rw [cloudClient_lt_iff]
    simp [h]
  · intro a b h
    rw [cloudClient_lt_iff]
    simp [h]
  · intro a
    cases h : CloudClient.lt a a with
    | false => rfl
    | true =>
      exfalso
      rcases (cloudClient_lt_iff a a).mp h with ⟨_, h2⟩ | ⟨h2, _⟩
      · exact lt_irrefl _ h2
      · exact h2 rfl
  · intro a b c hab hbc
    rw [cloudClient_lt_iff] at hab hbc ⊢
    rcases hab with ⟨e1, t1⟩ | ⟨n1, l1⟩
    · rcases hbc with ⟨e2, t2⟩ | ⟨n2, l2⟩
      · exact Or.inl ⟨e1.trans e2, lt_trans t1 t2⟩
      · refine Or.inr ⟨?_, ?_⟩
        · rw [e1]; exact ne_of_gt l2
        · rw [e1]; exact l2
    · rcases hbc with ⟨e2, t2⟩ | ⟨n2, l2⟩
      · refine Or.inr ⟨?_, ?_⟩
        · rw [← e2]; exact ne_of_gt l1
        · rw [← e2]; exact l1
      · exact Or.inr ⟨ne_of_gt (lt_trans l2 l1), lt_trans l2 l1⟩
  · intro a b
    by_cases h : a.release_level = b.release_level
    · rcases lt_trichotomy a.title b.title with ht | ht | ht
      · exact Or.inl ((cloudClient_lt_iff a b).mpr (Or.inl ⟨h, ht⟩))
      · exact Or.inr (Or.inr ⟨h, ht⟩)
      · exact Or.inr (Or.inl ((cloudClient_lt_iff b a).mpr
          (Or.inl ⟨h.symm, ht⟩)))
    · rcases lt_trichotomy a.release_level b.release_level with hl | hl | hl
      · exact Or.inr (Or.inl ((cloudClient_lt_iff b a).mpr
          (Or.inr ⟨Ne.symm h, hl⟩)))
      · exact absurd hl h
      · exact Or.inl ((cloudClient_lt_iff a b).mpr (Or.inr ⟨h, hl⟩))

/-- Witness for C2: both characterizations applied at concrete
descriptors. -/
theorem cloudClient_lt_total_order_witness :
    (CloudClient.lt ⟨"r1", "Zeta", "stable", "d1"⟩
        ⟨"r2", "Alpha", "beta", "d2"⟩ = true ↔
      ("beta" : String) < "stable")
  ∧ (CloudClient.lt ⟨"r1", "Alpha", "ga", "d1"⟩
        ⟨"r2", "Beta", "ga", "d2"⟩ = true ↔
      ("Alpha" : String) < "Beta") := by
  constructor
  · exact cloudClient_lt_total_order.1 ⟨"r1", "Zeta", "stable", "d1"⟩
      ⟨"r2", "Alpha", "beta", "d2"⟩ (by decide)
  · exact cloudClient_lt_total_order.2.1 ⟨"r1", "Alpha", "ga", "d1"⟩
      ⟨"r2", "Beta", "ga", "d2"⟩ rfl

/-- C3: `allowed_repo` holds iff the full name starts with
`"googleapis/python-"`, is not in the seven-slug exclusion list, and the
record is not archived; in particular it rejects `googleapis/java-storage`,
`googleapis/python-api-core`, and any archived record. -/
theorem allowed_repo_spec :
    (∀ r : RepoSummary, allowed_repo r = true ↔
        (pyStartswith r.full_name "googleapis/python-" = true ∧
          r.full_name ∉ REPO_EXCLUSION ∧ r.archived = false))
  ∧ REPO_EXCLUSION.length = 7
  ∧ allowed_repo ⟨"googleapis/java-storage", false⟩ = false
  ∧ allowed_repo ⟨"googleapis/python-api-core", false⟩ = false
  ∧ (∀ name : String, allowed_repo ⟨name, true⟩ = false) := by
  refine ⟨?_, by decide, by decide, by decide, ?_⟩
  · intro r
    simp [allowed_repo, and_assoc]
  · intro name
    simp [allowed_repo]

/-- Witness for C3: the characterization applied at a concrete allowed
record. -/
theorem allowed_repo_spec_witness :
    allowed_repo ⟨"googleapis/python-storage", false⟩ = true :=
  (allowed_repo_spec.1 ⟨"googleapis/python-storage", false⟩).mpr
    ⟨by decide, by decide, rfl⟩

lemma mem_allClientsLoop (fetch : String → MetadataResponse) :
    ∀ (pages : List (List RepoSummary)) (o : Option CloudClient),
      o ∈ allClientsLoop fetch pages →
      ∃ r : RepoSummary, allowed_repo r = true ∧
        o = client_for_repo fetch r.full_name := by
  intro pages
  induction pages with
  | nil => intro o h; simp [allClientsLoop] at h
  | cons page rest ih =>
    intro o h
    unfold allClientsLoop at h
    by_cases hp : page.length = 0
    · rw [if_pos hp] at h
      simp at h
    · rw [if_neg hp] at h
      rcases List.mem_append.mp h with h1 | h2
      · unfold get_clients_batch_from_response_json at h1
        rcases List.mem_map.mp h1 with ⟨r, hr, ho⟩
        exact ⟨r, (List.mem_filter.mp hr).2, ho.symm⟩
      · exact ih o h2

/-- C4: a non-success metadata response makes `client_for_repo` return no
descriptor rather than an error, and every descriptor in the result of
`all_clients` stems from an allowed repository whose fetch succeeded — the
absent descriptors are all removed, so a miss is skipped, not fatal. -/
theorem fetch_miss_skipped :
    (∀ (fetch : String → MetadataResponse) (slug : String),
        (fetch slug).status_code ≠ REQUESTS_CODES_OK →
        client_for_repo fetch slug = none)
  ∧ (∀ (fetch : String → MetadataResponse)
        (pages : List (List RepoSummary)) (c : CloudClient),
        c ∈ all_clients fetch pages →
        ∃ r : RepoSummary, allowed_repo r = true ∧
          (fetch r.full_name).status_code = REQUESTS_CODES_OK ∧
          client_for_repo fetch r.full_name = some c) := by
  constructor
  · intro fetch slug h
    simp [client_for_repo, h]
  · intro fetch pages c hc
    unfold all_clients at hc
    rcases List.mem_filterMap.mp hc with ⟨o, ho, hid⟩
    have hoc : o = some c := hid
    subst hoc
    rcases mem_allClientsLoop fetch pages (some c) ho with ⟨r, hr, hcr⟩
    have hstat : (fetch r.full_name).status_code = REQUESTS_CODES_OK := by
      by_contra hne
      unfold client_for_repo at hcr
      simp [hne] at hcr
    exact ⟨r, hr, hstat, hcr.symm⟩

/-- Witness for C4: a 404 response for a concrete slug yields no
descriptor. -/
theorem fetch_miss_skipped_witness :
    client_for_repo
        (fun _ => ⟨404, ⟨"googleapis/python-storage", "Google Cloud Storage",
          "ga", "google-cloud-storage"⟩⟩)
        "googleapis/python-storage" = none :=
  fetch_miss_skipped.1
    (fun _ => ⟨404, ⟨"googleapis/python-storage", "Google Cloud Storage",
      "ga", "google-cloud-storage"⟩⟩)
    "googleapis/python-storage" (by decide)

/-- C7: when the `GITHUB_TOKEN` environment variable is absent the script
fails with `MissingGithubToken` — the outcome is the same for every network
oracle and README (no network activity or rewrite can influence it), and no
rewritten document is ever produced. -/
theorem missing_token_fatal_before_work
    (env : String → Option String)
    (fetch fetch2 : String → MetadataResponse)
    (pages pages2 : List (List RepoSummary))
    (readme readme2 : List String)
    (h : env "GITHUB_TOKEN" = none) :
    run_script env fetch pages readme
        = Except.error ⟨"Please include a GITHUB_TOKEN env var."⟩
      ∧ run_script env fetch pages readme
          = run_script env fetch2 pages2 readme2
      ∧ ∀ out : List String,
          run_script env fetch pages readme ≠ Except.ok out := by
  refine ⟨?_, ?_, ?_⟩
  · simp [run_script, h]
  · simp [run_script, h]
  · intro out
    simp [run_script, h]

/-- Witness for C7 at a concrete empty environment. -/
theorem missing_token_fatal_before_work_witness :
    run_script (fun _ => none) (fun _ => ⟨200, ⟨"", "", "", ""⟩⟩) [] []
      = Except.error ⟨"Please include a GITHUB_TOKEN env var."⟩ :=
  (missing_token_fatal_before_work (fun _ => none)
      (fun _ => ⟨200, ⟨"", "", "", ""⟩⟩) (fun _ => ⟨404, ⟨"", "", "", ""⟩⟩)
      [] [] [] [] rfl).1

lemma foldl_tableStep (clients : List CloudClient) :
    ∀ rows links : List String,
      clients.foldl tableStep (rows, links)
        = (rows ++ (clients.map (fun c => (client_row c).1)).flatten,
            links ++ clients.map (fun c => (client_row c).2)) := by
  induction clients with
  | nil => intro rows links; simp
  | cons c cs ih =>
    intro rows links
    simp only [List.foldl_cons, tableStep]
    rw [ih]
    simp

/-- C8: `generate_table_contents` is a pure function producing the fixed
header block, then the per-descriptor table rows in input order, then a
separator and exactly one badge-definition line per descriptor in the same
order, each badge naming the distribution name and linking to its package
index page. -/
theorem generate_table_contents_spec (clients : List CloudClient) :
    generate_table_contents clients
        = TABLE_HEADER ++ (clients.map (fun c => (client_row c).1)).flatten
            ++ "\n" :: clients.map (fun c => (client_row c).2)
  ∧ (clients.map (fun c => (client_row c).2)).length = clients.length
  ∧ ∀ c : CloudClient, (client_row c).2
      = ".. |PyPI-" ++ c.distribution_name
          ++ "| image:: https://img.shields.io/pypi/v/" ++ c.distribution_name
          ++ ".svg\n     :target: https://pypi.org/project/"
          ++ c.distribution_name ++ "\n" := by
  refine ⟨?_, by simp, fun c => rfl⟩
  unfold generate_table_contents
  rw [foldl_tableStep]
  simp

/-- Witness for C8 at a concrete one-descriptor list. -/
theorem generate_table_contents_spec_witness :
    generate_table_contents
        [⟨"googleapis/python-storage", "Storage", "ga",
          "google-cloud-storage"⟩]
      = TABLE_HEADER
          ++ (client_row ⟨"googleapis/python-storage", "Storage", "ga",
              "google-cloud-storage"⟩).1
          ++ ["\n", (client_row ⟨"googleapis/python-storage", "Storage", "ga",
              "google-cloud-storage"⟩).2] := by
  have h := (generate_table_contents_spec
    [⟨"googleapis/python-storage", "Storage", "ga",
      "google-cloud-storage"⟩]).1
  simpa using h

/-- C9: a descriptor's title is the metadata pretty name with the substring
`"Google "` removed and then the substring `"Cloud "` removed; in particular
`"Google Cloud Storage"` yields `"Storage"` (and names without those
substrings are unchanged). -/
theorem title_normalization_spec (r : RepoMetadata) :
    (CloudClient.ofRepo r).title
        = pyReplace (pyReplace r.name_pretty "Google " "") "Cloud " ""
  ∧ (CloudClient.ofRepo ⟨"googleapis/python-storage", "Google Cloud Storage",
        "ga", "google-cloud-storage"⟩).title = "Storage"
  ∧ (CloudClient.ofRepo ⟨"r", "Google BigQuery", "ga", "d"⟩).title
      = "BigQuery"
  ∧ (CloudClient.ofRepo ⟨"r", "Cloud Spanner", "ga", "d"⟩).title = "Spanner"
  ∧ (CloudClient.ofRepo ⟨"r", "Secret Manager", "beta", "d"⟩).title
      = "Secret Manager" :=
  ⟨rfl, by decide, by decide, by decide, by decide⟩

/-- Witness for C9 at the spec's concrete pretty name. -/
theorem title_normalization_spec_witness :
    (CloudClient.ofRepo ⟨"googleapis/python-storage", "Google Cloud Storage",
        "ga", "google-cloud-storage"⟩).title
      = pyReplace (pyReplace "Google Cloud Storage" "Google " "")
          "Cloud " "" :=
  (title_normalization_spec ⟨"googleapis/python-storage",
      "Google Cloud Storage", "ga", "google-cloud-storage"⟩).1

end UpdateApiList
